import Mathlib

/-!
# TicketHub — verification of the dual-store event service

Shallow embedding of `src/app` (`crud.py`, `main.py`, `security.py`) of the
TicketHub backend: a relational store (SQL) for user records and event index
rows, a document store (MongoDB) for free-form event detail blobs, and a
TTL key-value cache (Redis) for read acceleration.

Modelling conventions:
* JSON values (`json.dumps`/`json.loads` payloads and HTTP response bodies)
  are an inductive `Json` type; `json.dumps` followed by `json.loads` is the
  identity on such values, so equality of `Json` values models byte-identical
  serialized bodies.
* Store-client failures (unreachable store, rejected statement) are injected
  through a `Faults` record: a `true` flag makes the corresponding client
  call raise, exactly at the call sites where the Python code can raise.
* Timestamps are naturals; "future" means strictly greater than the `now`
  passed to each read.
-/

namespace TicketHub

/-- A JSON value: the parsed form of the strings exchanged with Redis and
returned as HTTP bodies.  `json.dumps` is injective on these values and
`json.loads` is its inverse, so storing/returning `Json` values models the
string layer faithfully. -/
inductive Json where
  | str : String → Json
  | num : Nat → Json
  | arr : List Json → Json
  | obj : List (String × Json) → Json
  | null : Json

/-- A row of the `usuarios` table (schema `schemas.UserInDB`). -/
structure UserInDB where
  id_usuario : String
  id_grupo : Nat
  email : String
  senha_hash : String
  nome_completo : String
deriving DecidableEq

/-- A row of the `eventos` table: the relational facet of an event. -/
structure EventRow where
  id_evento : String
  id_usuario : String
  id_categoria : Nat
  titulo : String
  data_hora_inicio : Nat
  local_evento : String
  mongo_detalhes_id : Option String
deriving DecidableEq

/-- The request body of event create/update (schema `schemas.EventoCriacao`). -/
structure EventoCriacao where
  id_categoria : Nat
  titulo : String
  data_hora_inicio : Nat
  local_evento : String
  dados_mongo : List (String × Json)

/-- State of the relational store. `nextEventId` is the id-generation counter
of the stored procedure; `categorias` backs the category display-name join of
the read view. -/
structure SqlState where
  usuarios : List UserInDB
  eventos : List EventRow
  categorias : List (Nat × String)
  nextEventId : Nat

/-- State of the document store: documents keyed by their generated `_id`
(stringified `ObjectId`, unique), plus the id-generation counter. -/
structure MongoState where
  docs : List (String × List (String × Json))
  nextId : Nat

/-- State of the cache: string keys to cached (serialized) values. -/
def RedisState : Type := List (String × Json)

/-- `redis.get key`: the value stored under `key`, if any. -/
def redisGet : RedisState → String → Option Json
  | [], _ => none
  | p :: r, k => if p.1 == k then some p.2 else redisGet r k

/-- `redis.set key v ex=3600`: overwrite the value stored under `key`. -/
def redisSet (r : RedisState) (k : String) (v : Json) : RedisState :=
  (k, v) :: List.filter (fun p => p.1 != k) r

/-- `redis.delete key`: remove the entry stored under `key`, if any. -/
def redisDel (r : RedisState) (k : String) : RedisState :=
  List.filter (fun p => p.1 != k) r

/-- Fault-injection switches: a `true` flag makes the corresponding store
client call raise at its call site, as the Python clients can. -/
structure Faults where
  mongoInsertFails : Bool := false
  mongoDeleteFails : Bool := false
  mongoReplaceFails : Bool := false
  sqlProcFails : Bool := false
  sqlDeleteFails : Bool := false
  sqlUpdateFails : Bool := false
  cacheGetFails : Bool := false
  cacheSetFails : Bool := false
  cacheDelFails : Bool := false

/-- Error message raised by a failing `db_mongo.insert_one`. -/
def MONGO_INSERT_ERR : String := "mongo insert_one raised"

/-- Error message raised by a failing `db_mongo.delete_one`. -/
def MONGO_DELETE_ERR : String := "mongo delete_one raised"

/-- Error message raised by a failing `db_mongo.replace_one`. -/
def MONGO_REPLACE_ERR : String := "mongo replace_one raised"

/-- Error message raised by a failing `CALL SP_ADICIONAR_EVENTO_PRINCIPAL`. -/
def SQL_PROC_ERR : String := "stored procedure raised"

/-- Error message raised by a failing relational `DELETE`. -/
def SQL_DELETE_ERR : String := "sql delete raised"

/-- Error message raised by a failing relational `UPDATE`. -/
def SQL_UPDATE_ERR : String := "sql update raised"

/-- Error message raised by a failing Redis call. -/
def REDIS_ERR : String := "redis raised"

/-- Outcome of a `crud.py` coordinator call: the returned value or raised
exception, the committed relational and document states, whether
`db_sql.rollback()` was executed, and the lines printed to the log. -/
structure CrudOutcome (α : Type) where
  result : Except String α
  sql : SqlState
  mongo : MongoState
  rolledBack : Bool
  log : List String

/-- A row of the read view: event columns joined with the category display
name. -/
structure ViewRow where
  id_evento : String
  id_usuario : String
  id_categoria : Nat
  nome_categoria : String
  titulo : String
  data_hora_inicio : Nat
  local_evento : String
  mongo_detalhes_id : Option String

/-- Category display name for a category id (the view's join). -/
def nomeCategoria (s : SqlState) (cat : Nat) : String :=
  ((List.find? (fun c => c.1 == cat) s.categorias).map (fun c => c.2)).getD ""

/-- Modelled from the spec: the relational read view
`VIEW_AGENDA_FUTURA_USUARIO` is not part of `src/` (it lives in the
relational schema).  Per the spec it exposes the joined future events with
category display name and document reference: the event rows whose start
timestamp is still in the future, each joined with its category name. -/
def viewAgendaFutura (s : SqlState) (now : Nat) : List ViewRow :=
  (List.filter (fun e => now < e.data_hora_inicio) s.eventos).map
    (fun e => ⟨e.id_evento, e.id_usuario, e.id_categoria,
               nomeCategoria s e.id_categoria, e.titulo, e.data_hora_inicio,
               e.local_evento, e.mongo_detalhes_id⟩)

/-- `dict(row._mapping)` of a view row, serialized: the JSON object built
from the view columns, with the joined document under `detalhes_mongo` when
present. -/
def viewRowToJson (r : ViewRow) (det : Option (List (String × Json))) : Json :=
  Json.obj
    ([("id_evento", Json.str r.id_evento),
      ("id_usuario", Json.str r.id_usuario),
      ("id_categoria", Json.num r.id_categoria),
      ("nome_categoria", Json.str r.nome_categoria),
      ("titulo", Json.str r.titulo),
      ("data_hora_inicio", Json.num r.data_hora_inicio),
      ("local_evento", Json.str r.local_evento),
      ("mongo_detalhes_id",
        match r.mongo_detalhes_id with
        | some mid => Json.str mid
        | none => Json.null)] ++
     (match det with
      | some d => [("detalhes_mongo", Json.obj d)]
      | none => []))

/-- The joined document as the code returns it: the stored key/value pairs
with the stringified `_id` put back in front. -/
def docWithId (mid : String) (dados : List (String × Json)) :
    List (String × Json) :=
  ("_id", Json.str mid) :: dados

/-- `crud.obter_agenda_do_banco`: query the future-events view for the user,
batch-fetch all referenced documents with one `$in` lookup, and join each row
to its document by identifier equality. -/
def obter_agenda_do_banco (sql : SqlState) (mongo : MongoState) (now : Nat)
    (id_usuario : String) : List Json :=
  let eventos_sql :=
    List.filter (fun r => r.id_usuario == id_usuario) (viewAgendaFutura sql now)
  if eventos_sql.isEmpty then []
  else
    let mongo_ids := eventos_sql.filterMap (fun r => r.mongo_detalhes_id)
    if mongo_ids.isEmpty then
      eventos_sql.map (fun r => viewRowToJson r none)
    else
      let detalhes := List.filter (fun d => mongo_ids.contains d.1) mongo.docs
      eventos_sql.map (fun r =>
        match r.mongo_detalhes_id with
        | some mid =>
          match List.find? (fun d => d.1 == mid) detalhes with
          | some d => viewRowToJson r (some (docWithId mid d.2))
          | none => viewRowToJson r none
        | none => viewRowToJson r none)

/-- `crud.get_single_event_by_id`: query the future-events view filtered by
both event id and owning user id (the ownership check is part of the query
predicate), then join the single referenced document if present. -/
def get_single_event_by_id (sql : SqlState) (mongo : MongoState) (now : Nat)
    (id_evento id_usuario : String) : Option Json :=
  match List.find?
      (fun r => r.id_usuario == id_usuario && r.id_evento == id_evento)
      (viewAgendaFutura sql now) with
  | none => none
  | some r =>
    match r.mongo_detalhes_id with
    | none => some (viewRowToJson r none)
    | some mid =>
      match List.find? (fun d => d.1 == mid) mongo.docs with
      | some d => some (viewRowToJson r (some (docWithId mid d.2)))
      | none => some (viewRowToJson r none)

/-- `db_mongo.insert_one`: append the document under a fresh generated id. -/
def mongoInsert (m : MongoState) (dados : List (String × Json)) :
    String × MongoState :=
  (toString m.nextId,
   ⟨m.docs ++ [(toString m.nextId, dados)], m.nextId + 1⟩)

/-- `db_mongo.delete_one` by `_id` (ids are unique, so removing every match
removes at most the one document). -/
def mongoDelete (m : MongoState) (mid : String) : MongoState :=
  ⟨List.filter (fun d => d.1 != mid) m.docs, m.nextId⟩

/-- `db_mongo.replace_one` by `_id`: full overwrite of the document body. -/
def mongoReplace (m : MongoState) (mid : String)
    (dados : List (String × Json)) : MongoState :=
  ⟨m.docs.map (fun d => if d.1 == mid then (d.1, dados) else d), m.nextId⟩

/-- Modelled from the spec: the stored procedure
`SP_ADICIONAR_EVENTO_PRINCIPAL` is not part of `src/` (it lives in the
relational schema).  Per the spec it performs identifier generation and row
insertion atomically on the relational side and returns the new event id. -/
def spAdicionarEventoPrincipal (s : SqlState) (evento : EventoCriacao)
    (id_usuario mongo_id : String) : String × SqlState :=
  let nid := toString s.nextEventId
  (nid,
   ⟨s.usuarios,
    s.eventos ++ [⟨nid, id_usuario, evento.id_categoria, evento.titulo,
                   evento.data_hora_inicio, evento.local_evento,
                   some mongo_id⟩],
    s.categorias, s.nextEventId + 1⟩)

/-- `crud.criar_evento_completo`: insert the document facet first, then call
the relational insertion procedure; on a relational failure, compensate by
deleting the just-created document (unguarded: if that delete itself raises,
its exception propagates and neither the rollback nor the log line runs). -/
def criar_evento_completo (f : Faults) (sql : SqlState) (mongo : MongoState)
    (evento : EventoCriacao) (id_usuario : String) : CrudOutcome String :=
  if f.mongoInsertFails then ⟨.error MONGO_INSERT_ERR, sql, mongo, false, []⟩
  else
    let ins := mongoInsert mongo evento.dados_mongo
    let mongo_id := ins.1
    let mongo1 := ins.2
    if mongo_id == "" then
      ⟨.error "Falha ao criar documento no MongoDB", sql, mongo1, false, []⟩
    else if f.sqlProcFails then
      -- except branch: db_mongo.delete_one, db_sql.rollback(), print, raise
      if f.mongoDeleteFails then
        ⟨.error MONGO_DELETE_ERR, sql, mongo1, false, []⟩
      else
        ⟨.error SQL_PROC_ERR, sql, mongoDelete mongo1 mongo_id, true,
         ["ERRO DE SQL: Rollback do MongoDB executado. Erro: " ++
          SQL_PROC_ERR]⟩
    else
      let call := spAdicionarEventoPrincipal sql evento id_usuario mongo_id
      ⟨.ok call.1, call.2, mongo1, false, []⟩

/-- `crud.deletar_evento_completo`: look up by (event id, owning user id) in
the `eventos` table, then delete the row and, if referenced, the document;
roll back and re-raise on any exception inside the try block. -/
def deletar_evento_completo (f : Faults) (sql : SqlState) (mongo : MongoState)
    (id_evento id_usuario : String) : CrudOutcome (Option Bool) :=
  match List.find?
      (fun e => e.id_evento == id_evento && e.id_usuario == id_usuario)
      sql.eventos with
  | none => ⟨.ok none, sql, mongo, false, []⟩
  | some row =>
    if f.sqlDeleteFails then
      ⟨.error SQL_DELETE_ERR, sql, mongo, true,
       ["ERRO AO DELETAR: Rollback executado. Erro: " ++ SQL_DELETE_ERR]⟩
    else
      let sql1 : SqlState :=
        ⟨sql.usuarios,
         List.filter (fun e => e.id_evento != id_evento) sql.eventos,
         sql.categorias, sql.nextEventId⟩
      match row.mongo_detalhes_id with
      | some mid =>
        if f.mongoDeleteFails then
          ⟨.error MONGO_DELETE_ERR, sql, mongo, true,
           ["ERRO AO DELETAR: Rollback executado. Erro: " ++
            MONGO_DELETE_ERR]⟩
        else ⟨.ok (some true), sql1, mongoDelete mongo mid, false, []⟩
      | none => ⟨.ok (some true), sql1, mongo, false, []⟩

/-- `crud.atualizar_evento_completo`: look up by (event id, owning user id)
in the `eventos` table, update the relational columns, replace the whole
document if referenced; roll back and re-raise on any exception inside the
try block. -/
def atualizar_evento_completo (f : Faults) (sql : SqlState)
    (mongo : MongoState) (id_evento id_usuario : String)
    (evento_data : EventoCriacao) : CrudOutcome (Option Bool) :=
  match List.find?
      (fun e => e.id_evento == id_evento && e.id_usuario == id_usuario)
      sql.eventos with
  | none => ⟨.ok none, sql, mongo, false, []⟩
  | some row =>
    if f.sqlUpdateFails then
      ⟨.error SQL_UPDATE_ERR, sql, mongo, true,
       ["ERRO AO ATUALIZAR: Rollback executado. Erro: " ++ SQL_UPDATE_ERR]⟩
    else
      let sql1 : SqlState :=
        ⟨sql.usuarios,
         sql.eventos.map (fun e =>
           if e.id_evento == id_evento then
             ⟨e.id_evento, e.id_usuario, evento_data.id_categoria,
              evento_data.titulo, evento_data.data_hora_inicio,
              evento_data.local_evento, e.mongo_detalhes_id⟩
           else e),
         sql.categorias, sql.nextEventId⟩
      match row.mongo_detalhes_id with
      | some mid =>
        if f.mongoReplaceFails then
          ⟨.error MONGO_REPLACE_ERR, sql, mongo, true,
           ["ERRO AO ATUALIZAR: Rollback executado. Erro: " ++
            MONGO_REPLACE_ERR]⟩
        else
          ⟨.ok (some true), sql1, mongoReplace mongo mid
            evento_data.dados_mongo, false, []⟩
      | none => ⟨.ok (some true), sql1, mongo, false, []⟩

/-- Outcome of an HTTP endpoint: an `ok` JSON body, an empty 204 success, or
an `HTTPException` with status code and detail string. -/
inductive ApiResult where
  | ok : Json → ApiResult
  | noContent : ApiResult
  | err : Nat → String → ApiResult

/-- Outcome of an endpoint call together with the resulting store states. -/
structure ApiOutcome where
  result : ApiResult
  sql : SqlState
  mongo : MongoState
  redis : RedisState

/-- `main.api_criar_evento`: the whole body runs inside one try block whose
except clause turns any exception — including a failing Redis delete and the
inner 500 raised when the fetch-after-write finds nothing — into a 500.
State changes committed before the exception persist. -/
def api_criar_evento (f : Faults) (sql : SqlState) (mongo : MongoState)
    (redis : RedisState) (now : Nat) (evento : EventoCriacao)
    (id_usuario : String) : ApiOutcome :=
  let c := criar_evento_completo f sql mongo evento id_usuario
  match c.result with
  | .error e =>
    ⟨.err 500 ("Ocorreu um erro ao criar evento: " ++ e), c.sql, c.mongo,
     redis⟩
  | .ok novo_evento_id_sql =>
    if f.cacheDelFails then
      ⟨.err 500 ("Ocorreu um erro ao criar evento: " ++ REDIS_ERR), c.sql,
       c.mongo, redis⟩
    else
      let redis1 := redisDel redis ("agenda:" ++ id_usuario)
      match get_single_event_by_id c.sql c.mongo now novo_evento_id_sql
          id_usuario with
      | none =>
        ⟨.err 500 ("Ocorreu um erro ao criar evento: " ++
           "Erro ao buscar evento recém-criado."), c.sql, c.mongo, redis1⟩
      | some j => ⟨.ok j, c.sql, c.mongo, redis1⟩

/-- `main.api_obter_agenda`: cache check (read failure treated as a miss and
logged), on miss compute from the stores, then best-effort cache write
(failure logged, response still returned). -/
def api_obter_agenda (f : Faults) (sql : SqlState) (mongo : MongoState)
    (redis : RedisState) (now : Nat) (id_usuario : String) : ApiOutcome :=
  let cache_key := "agenda:" ++ id_usuario
  match (if f.cacheGetFails then none else redisGet redis cache_key) with
  | some cached => ⟨.ok cached, sql, mongo, redis⟩
  | none =>
    let agenda := obter_agenda_do_banco sql mongo now id_usuario
    let redis1 :=
      if f.cacheSetFails then redis
      else redisSet redis cache_key (Json.arr agenda)
    ⟨.ok (Json.arr agenda), sql, mongo, redis1⟩

/-- `main.api_get_single_event`: cache key `evento:{id_evento}` (no user id
in the key); cache check first, then the ownership-filtered store lookup on a
miss, 404 when nothing matches, then best-effort cache write. -/
def api_get_single_event (f : Faults) (sql : SqlState) (mongo : MongoState)
    (redis : RedisState) (now : Nat) (id_evento id_usuario : String) :
    ApiOutcome :=
  let cache_key := "evento:" ++ id_evento
  match (if f.cacheGetFails then none else redisGet redis cache_key) with
  | some cached => ⟨.ok cached, sql, mongo, redis⟩
  | none =>
    match get_single_event_by_id sql mongo now id_evento id_usuario with
    | none =>
      ⟨.err 404 "Evento não encontrado ou não pertence ao usuário.", sql,
       mongo, redis⟩
    | some evento =>
      let redis1 :=
        if f.cacheSetFails then redis else redisSet redis cache_key evento
      ⟨.ok evento, sql, mongo, redis1⟩

/-- `main.api_atualizar_evento`: coordinator call (500 on exception, 404 on
not-found/not-owned), then best-effort invalidation of both cache entries
(failure absorbed and logged), then re-fetch of the updated event. -/
def api_atualizar_evento (f : Faults) (sql : SqlState) (mongo : MongoState)
    (redis : RedisState) (now : Nat) (id_evento : String)
    (evento_data : EventoCriacao) (id_usuario : String) : ApiOutcome :=
  let c := atualizar_evento_completo f sql mongo id_evento id_usuario
    evento_data
  match c.result with
  | .error e =>
    ⟨.err 500 ("Ocorreu um erro ao atualizar: " ++ e), c.sql, c.mongo, redis⟩
  | .ok none =>
    ⟨.err 404 "Evento não encontrado ou não pertence ao usuário.", c.sql,
     c.mongo, redis⟩
  | .ok (some _) =>
    let redis1 :=
      if f.cacheDelFails then redis
      else redisDel (redisDel redis ("agenda:" ++ id_usuario))
        ("evento:" ++ id_evento)
    match get_single_event_by_id c.sql c.mongo now id_evento id_usuario with
    | none =>
      ⟨.err 404 "Evento não encontrado após a atualização.", c.sql, c.mongo,
       redis1⟩
    | some j => ⟨.ok j, c.sql, c.mongo, redis1⟩

/-- `main.api_deletar_evento`: coordinator call (500 on exception, 404 on
not-found/not-owned), then best-effort invalidation of both cache entries
(failure absorbed and logged), then 204. -/
def api_deletar_evento (f : Faults) (sql : SqlState) (mongo : MongoState)
    (redis : RedisState) (id_evento id_usuario : String) : ApiOutcome :=
  let c := deletar_evento_completo f sql mongo id_evento id_usuario
  match c.result with
  | .error e =>
    ⟨.err 500 ("Ocorreu um erro ao deletar: " ++ e), c.sql, c.mongo, redis⟩
  | .ok none =>
    ⟨.err 404 "Evento não encontrado ou não pertence ao usuário.", c.sql,
     c.mongo, redis⟩
  | .ok (some _) =>
    let redis1 :=
      if f.cacheDelFails then redis
      else redisDel (redisDel redis ("agenda:" ++ id_usuario))
        ("evento:" ++ id_evento)
    ⟨.noContent, c.sql, c.mongo, redis1⟩

/-- `crud.get_user_by_email`: first `usuarios` row with the given email. -/
def get_user_by_email (usuarios : List UserInDB) (email : String) :
    Option UserInDB :=
  List.find? (fun u => u.email == email) usuarios

/-- `security.authenticate_user`: look up by email; return `none` when the
user is missing or the password does not verify against the stored hash.
The one-way hash check `security.verify_password` (bcrypt) is the black-box
parameter `verify`. -/
def authenticate_user (verify : String → String → Bool)
    (usuarios : List UserInDB) (email password : String) : Option UserInDB :=
  match get_user_by_email usuarios email with
  | none => none
  | some user => if verify password user.senha_hash then some user else none

/-- Response body of the forgot-password endpoint: the fixed message, plus
the `reset_token_for_testing` field present exactly when a user was found. -/
structure ForgotPasswordResponse where
  message : String
  reset_token_for_testing : Option String
deriving DecidableEq

/-- `main.api_forgot_password`: look up the submitted email; when a user
exists, generate a reset token and return it in the response body; otherwise
return the message alone.  Token creation
(`security.create_password_reset_token`, a signed-claim codec) is the
black-box parameter `mkToken`. -/
def api_forgot_password (mkToken : String → String)
    (usuarios : List UserInDB) (email : String) : ForgotPasswordResponse :=
  match get_user_by_email usuarios email with
  | some user =>
    ⟨"Se um usuário com este e-mail existir, um token de recuperação foi gerado.",
     some (mkToken user.id_usuario)⟩
  | none =>
    ⟨"Se um usuário com este e-mail existir, um token de recuperação foi gerado.",
     none⟩

/-! ## Helper lemmas -/

/-- `Nat.toDigitsCore` never shortens its accumulator. -/
theorem toDigitsCore_length_le (b : Nat) :
    ∀ (fuel n : Nat) (ds : List Char),
      ds.length ≤ (Nat.toDigitsCore b fuel n ds).length := by
  intro fuel
  induction fuel with
  | zero => intro n ds; simp [Nat.toDigitsCore]
  | succ fuel ih =>
    intro n ds
    simp only [Nat.toDigitsCore]
    split
    · simp
    · exact le_trans (by simp) (ih (n / b) (Nat.digitChar (n % b) :: ds))

/-- The decimal digit list of a natural number is never empty. -/
theorem toDigits_ne_nil (b n : Nat) : Nat.toDigits b n ≠ [] := by
  unfold Nat.toDigits
  simp only [Nat.toDigitsCore]
  split
  · simp
  · intro h
    have h1 := toDigitsCore_length_le b n (n / b) [Nat.digitChar (n % b)]
    rw [h] at h1
    simp at h1

/-- The decimal string of a natural number is never empty: the generated
document and event identifiers are never falsy. -/
theorem natToString_ne_empty (n : Nat) : toString n ≠ "" := by
  show Nat.repr n ≠ ""
  unfold Nat.repr
  intro h
  exact toDigits_ne_nil 10 n (by
    have h2 := congrArg String.data h
    simpa [List.asString] using h2)

/-- Boolean form of `natToString_ne_empty`. -/
theorem natToString_beq_empty (n : Nat) : (toString n == "") = false := by
  simp [natToString_ne_empty n]

/-- Reading back the key just written returns the written value. -/
theorem redisGet_set_self (r : RedisState) (k : String) (v : Json) :
    redisGet (redisSet r k v) k = some v := by
  simp [redisGet, redisSet]

/-- Reading the key just deleted misses. -/
theorem redisGet_del_self (r : RedisState) (k : String) :
    redisGet (redisDel r k) k = none := by
  induction r with
  | nil => rfl
  | cons x xs ih =>
    by_cases hx : x.1 = k
    · simpa [redisDel, List.filter_cons, hx] using ih
    · simpa [redisDel, List.filter_cons, hx, redisGet] using ih

/-- Deleting one key leaves every other key's entry unchanged. -/
theorem redisGet_del_ne (r : RedisState) (k k' : String) (h : k' ≠ k) :
    redisGet (redisDel r k) k' = redisGet r k' := by
  induction r with
  | nil => rfl
  | cons x xs ih =>
    by_cases hx : x.1 = k
    · simp only [redisDel, List.filter_cons] at *
      simp [hx, redisGet, ih, Ne.symm h]
    · by_cases hk' : x.1 = k'
      · simp only [redisDel, List.filter_cons] at *
        simp [hx, hk', redisGet, h]
      · simp only [redisDel, List.filter_cons] at *
        simp [hx, hk', redisGet, ih]

/-! ## Concrete test fixture

A small reachable configuration: two standard users, one event owned by
user `B` with a joined document, one category. -/

/-- No injected store faults: every client call succeeds. -/
def noFaults : Faults :=
  ⟨false, false, false, false, false, false, false, false, false⟩

/-- The result is an `ok` body (HTTP 2xx with payload). -/
def isOkResult : ApiResult → Bool
  | .ok _ => true
  | .noContent => false
  | .err _ _ => false

/-- Fixture: standard user `A`. -/
def userA : UserInDB := ⟨"A", 2, "a@x.com", "hashA", "Alice"⟩

/-- Fixture: standard user `B`. -/
def userB : UserInDB := ⟨"B", 2, "b@x.com", "hashB", "Bob"⟩

/-- Fixture: the event row owned by `B`, starting at time 100. -/
def rowB : EventRow := ⟨"1", "B", 3, "Launch", 100, "HQ", some "7"⟩

/-- Fixture: the document joined to `rowB`. -/
def docB : String × List (String × Json) :=
  ("7", [("speaker", Json.str "Alice")])

/-- Fixture: relational state with both users and `B`'s event. -/
def sql0 : SqlState := ⟨[userA, userB], [rowB], [(3, "Conferencia")], 2⟩

/-- Fixture: document state holding `B`'s document. -/
def mongo0 : MongoState := ⟨[docB], 8⟩

/-- Fixture: a create/update request body with a future start time. -/
def novoEvento : EventoCriacao :=
  ⟨3, "Launch", 100, "HQ", [("speaker", Json.str "Alice")]⟩

/-- The serialized body of `B`'s event as `get_single_event_by_id` returns
it at `now = 0`. -/
def eventoBJson : Json :=
  viewRowToJson ⟨"1", "B", 3, "Conferencia", "Launch", 100, "HQ", some "7"⟩
    (some (docWithId "7" [("speaker", Json.str "Alice")]))

example : get_single_event_by_id sql0 mongo0 0 "1" "B" = some eventoBJson := rfl

example : get_single_event_by_id sql0 mongo0 0 "1" "A" = none := rfl

example :
    (api_get_single_event noFaults sql0 mongo0 [] 0 "1" "B").redis =
      [("evento:1", eventoBJson)] := rfl

/-- The `(event id, owning user)` lookup on the `eventos` table misses when
no row with that id belongs to that user. -/
theorem eventos_lookup_none (evs : List EventRow) (E U : String)
    (h : ∀ e ∈ evs, e.id_evento = E → e.id_usuario ≠ U) :
    List.find? (fun e => e.id_evento == E && e.id_usuario == U) evs =
      none := by
  rw [List.find?_eq_none]
  intro e he
  simp only [Bool.and_eq_true, beq_iff_eq, not_and]
  intro h1 h2
  exact h e he h1 h2

/-- `get_single_event_by_id` returns `none` when no relational row with the
requested id belongs to the requesting user. -/
theorem get_single_event_none (sql : SqlState) (mongo : MongoState)
    (now : Nat) (E V : String)
    (h : ∀ e ∈ sql.eventos, e.id_evento = E → e.id_usuario ≠ V) :
    get_single_event_by_id sql mongo now E V = none := by
  have hview : List.find?
      (fun r => r.id_usuario == V && r.id_evento == E)
      (viewAgendaFutura sql now) = none := by
    rw [List.find?_eq_none]
    intro r hr
    simp only [viewAgendaFutura, List.mem_map, List.mem_filter] at hr
    obtain ⟨e, ⟨he, _⟩, rfl⟩ := hr
    simp only [Bool.and_eq_true, beq_iff_eq, not_and]
    intro h1 h2
    exact h e he h2 h1
  simp [get_single_event_by_id, hview]

/-- `api_get_single_event` answers 404 when the cache has no entry under the
event's key and no relational row with that id belongs to the caller. -/
theorem api_get_single_404 (g : Faults) (sql : SqlState)
    (mongo : MongoState) (redis : RedisState) (now : Nat) (E V : String)
    (hrow : ∀ e ∈ sql.eventos, e.id_evento = E → e.id_usuario ≠ V)
    (hcache : redisGet redis ("evento:" ++ E) = none) :
    (api_get_single_event g sql mongo redis now E V).result =
      ApiResult.err 404
        "Evento não encontrado ou não pertence ao usuário." := by
  have hcc : (if g.cacheGetFails then none
      else redisGet redis ("evento:" ++ E)) = (none : Option Json) := by
    cases g.cacheGetFails <;> simp [hcache]
  simp [api_get_single_event, hcc,
    get_single_event_none sql mongo now E V hrow]

/-! ## Claim C3 — compensation deletes the orphan document -/

/-- Claim C3: for every `CreateEvent` execution in which the document insert
succeeds, the relational insertion procedure fails, and the compensating
document delete goes through, the coordinator deletes the just-created
document and propagates the original relational error: afterwards no
document with the generated identifier remains in the document store, the
relational state is unchanged, and the relational transaction was rolled
back. -/
theorem create_compensation_no_orphan (f : Faults) (sql : SqlState)
    (mongo : MongoState) (evento : EventoCriacao) (id_usuario : String)
    (h1 : f.mongoInsertFails = false) (h2 : f.sqlProcFails = true)
    (h3 : f.mongoDeleteFails = false) :
    (criar_evento_completo f sql mongo evento id_usuario).result =
      Except.error SQL_PROC_ERR ∧
    (∀ d ∈ (criar_evento_completo f sql mongo evento id_usuario).mongo.docs,
      d.1 ≠ toString mongo.nextId) ∧
    (criar_evento_completo f sql mongo evento id_usuario).sql = sql ∧
    (criar_evento_completo f sql mongo evento id_usuario).rolledBack = true := by
  refine ⟨?_, ?_, ?_, ?_⟩
  · simp [criar_evento_completo, mongoInsert, h1, h2, h3,
      natToString_beq_empty]
  · intro d hd
    simp only [criar_evento_completo, mongoInsert, h1, h2, h3,
      natToString_beq_empty, Bool.false_eq_true, if_false, mongoDelete] at hd
    have := List.of_mem_filter hd
    simpa using this
  · simp [criar_evento_completo, mongoInsert, h1, h2, h3,
      natToString_beq_empty]
  · simp [criar_evento_completo, mongoInsert, h1, h2, h3,
      natToString_beq_empty]

/-- Witness for `create_compensation_no_orphan` at the concrete fixture. -/
theorem create_compensation_no_orphan_witness :
    (criar_evento_completo
        ⟨false, false, false, true, false, false, false, false, false⟩
        sql0 mongo0 novoEvento "A").result = Except.error SQL_PROC_ERR ∧
    (criar_evento_completo
        ⟨false, false, false, true, false, false, false, false, false⟩
        sql0 mongo0 novoEvento "A").sql = sql0 := by
  have h := create_compensation_no_orphan
    ⟨false, false, false, true, false, false, false, false, false⟩
    sql0 mongo0 novoEvento "A" rfl rfl rfl
  exact ⟨h.1, h.2.2.1⟩

/-! ## Claim C4 — a failing compensating delete is not absorbed -/

/-- Claim C4 counterexample: with the relational procedure failing and the
compensating `delete_one` also failing, the error the coordinator propagates
is the delete failure (not the original relational error), the relational
rollback is skipped, nothing is logged, and the orphan document remains. -/
theorem compensation_delete_failure_replaces_error :
    (criar_evento_completo
        ⟨false, true, false, true, false, false, false, false, false⟩
        sql0 mongo0 novoEvento "A").result =
      Except.error MONGO_DELETE_ERR ∧
    (criar_evento_completo
        ⟨false, true, false, true, false, false, false, false, false⟩
        sql0 mongo0 novoEvento "A").result ≠ Except.error SQL_PROC_ERR ∧
    (criar_evento_completo
        ⟨false, true, false, true, false, false, false, false, false⟩
        sql0 mongo0 novoEvento "A").rolledBack = false ∧
    (criar_evento_completo
        ⟨false, true, false, true, false, false, false, false, false⟩
        sql0 mongo0 novoEvento "A").log = [] := by
  refine ⟨rfl, ?_, rfl, rfl⟩
  intro h
  exact absurd (Except.error.inj h) (by decide)

/-- Claim C4 (amended): when the relational write fails and the compensating
document delete also fails, the delete failure propagates in place of the
original relational error, the relational rollback is skipped, nothing is
logged, and the orphan document created by the call remains in the document
store. -/
theorem compensation_delete_failure_unguarded (f : Faults) (sql : SqlState)
    (mongo : MongoState) (evento : EventoCriacao) (id_usuario : String)
    (h1 : f.mongoInsertFails = false) (h2 : f.sqlProcFails = true)
    (h3 : f.mongoDeleteFails = true) :
    (criar_evento_completo f sql mongo evento id_usuario).result =
      Except.error MONGO_DELETE_ERR ∧
    (criar_evento_completo f sql mongo evento id_usuario).rolledBack =
      false ∧
    (criar_evento_completo f sql mongo evento id_usuario).log = [] ∧
    (toString mongo.nextId, evento.dados_mongo) ∈
      (criar_evento_completo f sql mongo evento id_usuario).mongo.docs := by
  refine ⟨?_, ?_, ?_, ?_⟩
  · simp [criar_evento_completo, mongoInsert, h1, h2, h3,
      natToString_beq_empty]
  · simp [criar_evento_completo, mongoInsert, h1, h2, h3,
      natToString_beq_empty]
  · simp [criar_evento_completo, mongoInsert, h1, h2, h3,
      natToString_beq_empty]
  · simp [criar_evento_completo, mongoInsert, h1, h2, h3,
      natToString_beq_empty]

/-- Witness for `compensation_delete_failure_unguarded` at the fixture. -/
theorem compensation_delete_failure_unguarded_witness :
    (criar_evento_completo
        ⟨false, true, false, true, false, false, false, false, false⟩
        sql0 mongo0 novoEvento "B").result =
      Except.error MONGO_DELETE_ERR ∧
    ("8", novoEvento.dados_mongo) ∈
      (criar_evento_completo
        ⟨false, true, false, true, false, false, false, false, false⟩
        sql0 mongo0 novoEvento "B").mongo.docs := by
  have h := compensation_delete_failure_unguarded
    ⟨false, true, false, true, false, false, false, false, false⟩
    sql0 mongo0 novoEvento "B" rfl rfl rfl
  exact ⟨h.1, h.2.2.2⟩

/-! ## Claim C7 — authentication collapses both failure cases to none -/

/-- Claim C7: `authenticate_user` returns `none` both when no user with the
email exists and when the user exists but the password does not verify
against the stored hash — the two cases produce the same outcome. -/
theorem authenticate_uniform_none (verify : String → String → Bool)
    (usuarios : List UserInDB) (email password : String) :
    (get_user_by_email usuarios email = none →
      authenticate_user verify usuarios email password = none) ∧
    (∀ u, get_user_by_email usuarios email = some u →
      verify password u.senha_hash = false →
      authenticate_user verify usuarios email password = none) := by
  constructor
  · intro h
    simp [authenticate_user, h]
  · intro u hu hv
    simp [authenticate_user, hu, hv]

/-- Witness for `authenticate_uniform_none`: the missing-email case and the
wrong-password case at concrete inputs, both `none`. -/
theorem authenticate_uniform_none_witness :
    authenticate_user (fun p h => p == h) [userA, userB] "nobody@x.com"
      "pw" = none ∧
    authenticate_user (fun p h => p == h) [userA, userB] "a@x.com"
      "wrong" = none := by
  refine ⟨(authenticate_uniform_none (fun p h => p == h) [userA, userB]
    "nobody@x.com" "pw").1 rfl, ?_⟩
  exact (authenticate_uniform_none (fun p h => p == h) [userA, userB]
    "a@x.com" "wrong").2 userA rfl rfl

/-! ## Claim C9 — forgot-password reveals account existence -/

/-- Claim C9: the forgot-password response carries the generated reset token
exactly when the submitted email belongs to a registered user, so two runs
that differ only in whether the email is registered produce observably
different outputs. -/
theorem forgot_password_reveals_existence :
    (api_forgot_password (fun uid => "tok-" ++ uid) [userA]
        "a@x.com").reset_token_for_testing = some "tok-A" ∧
    (api_forgot_password (fun uid => "tok-" ++ uid) []
        "a@x.com").reset_token_for_testing = none ∧
    api_forgot_password (fun uid => "tok-" ++ uid) [userA] "a@x.com" ≠
      api_forgot_password (fun uid => "tok-" ++ uid) [] "a@x.com" := by
  refine ⟨rfl, rfl, ?_⟩
  decide

/-! ## Claim C1 — ownership isolation and the shared single-item cache key -/

/-- Claim C1 counterexample: the single-item cache key `evento:{id}` carries
no user id, so after `B`'s read populates it, `A`'s `ReadSingleEvent` for
`B`'s event is served `B`'s event data from the cache instead of
not-found. -/
theorem read_single_event_cross_user_cache_leak :
    (api_get_single_event noFaults sql0 mongo0
        (api_get_single_event noFaults sql0 mongo0 [] 0 "1" "B").redis
        0 "1" "A").result = ApiResult.ok eventoBJson ∧
    ApiResult.ok eventoBJson ≠
      ApiResult.err 404
        "Evento não encontrado ou não pertence ao usuário." := by
  refine ⟨rfl, ?_⟩
  intro h
  exact ApiResult.noConfusion h

/-- Claim C1 (amended): for distinct users `A` and `B` and an event id whose
rows all belong to `B`, `UpdateEvent` and `DeleteEvent` invoked by `A`
return not-found in every state, and `ReadSingleEvent` invoked by `A`
returns not-found whenever the cache holds no entry under that event's key;
a single-item entry populated by a prior read of `B`'s, however, is served
to `A` (see the counterexample). -/
theorem ownership_isolation_amended (f : Faults) (sql : SqlState)
    (mongo : MongoState) (redis : RedisState) (now : Nat) (E A B : String)
    (d : EventoCriacao) (hAB : A ≠ B)
    (hOwn : ∀ e ∈ sql.eventos, e.id_evento = E → e.id_usuario = B)
    (hCache : redisGet redis ("evento:" ++ E) = none) :
    (api_atualizar_evento f sql mongo redis now E d A).result =
      ApiResult.err 404
        "Evento não encontrado ou não pertence ao usuário." ∧
    (api_deletar_evento f sql mongo redis E A).result =
      ApiResult.err 404
        "Evento não encontrado ou não pertence ao usuário." ∧
    (api_get_single_event f sql mongo redis now E A).result =
      ApiResult.err 404
        "Evento não encontrado ou não pertence ao usuário." := by
  have hown' : ∀ e ∈ sql.eventos, e.id_evento = E → e.id_usuario ≠ A := by
    intro e he h1 h2
    exact hAB ((h2.symm).trans (hOwn e he h1))
  have hfind := eventos_lookup_none sql.eventos E A hown'
  refine ⟨?_, ?_, ?_⟩
  · simp [api_atualizar_evento, atualizar_evento_completo, hfind]
  · simp [api_deletar_evento, deletar_evento_completo, hfind]
  · exact api_get_single_404 f sql mongo redis now E A hown' hCache

/-- Witness for `ownership_isolation_amended` at the concrete fixture. -/
theorem ownership_isolation_amended_witness :
    (api_atualizar_evento noFaults sql0 mongo0 [] 0 "1" novoEvento
        "A").result =
      ApiResult.err 404
        "Evento não encontrado ou não pertence ao usuário." ∧
    (api_deletar_evento noFaults sql0 mongo0 [] "1" "A").result =
      ApiResult.err 404
        "Evento não encontrado ou não pertence ao usuário." ∧
    (api_get_single_event noFaults sql0 mongo0 [] 0 "1" "A").result =
      ApiResult.err 404
        "Evento não encontrado ou não pertence ao usuário." :=
  ownership_isolation_amended noFaults sql0 mongo0 [] 0 "1" "A" "B"
    novoEvento (by decide) (by decide) rfl

/-! ## Claim C5 — delete-then-read and failed cache invalidation -/

/-- Claim C5 counterexample: starting from a state where `B`'s event `1` is
cached, a `DeleteEvent` whose cache invalidation fails still reports
success and removes the event from both stores, yet the following
`ReadSingleEvent` serves the deleted event from the stale cache entry
instead of not-found. -/
theorem delete_with_failed_invalidation_serves_stale :
    (api_deletar_evento {noFaults with cacheDelFails := true} sql0 mongo0
        [("evento:1", eventoBJson)] "1" "B").result =
      ApiResult.noContent ∧
    (api_deletar_evento {noFaults with cacheDelFails := true} sql0 mongo0
        [("evento:1", eventoBJson)] "1" "B").sql.eventos = [] ∧
    (api_get_single_event noFaults
        (api_deletar_evento {noFaults with cacheDelFails := true} sql0
          mongo0 [("evento:1", eventoBJson)] "1" "B").sql
        (api_deletar_evento {noFaults with cacheDelFails := true} sql0
          mongo0 [("evento:1", eventoBJson)] "1" "B").mongo
        (api_deletar_evento {noFaults with cacheDelFails := true} sql0
          mongo0 [("evento:1", eventoBJson)] "1" "B").redis
        0 "1" "B").result = ApiResult.ok eventoBJson ∧
    ApiResult.ok eventoBJson ≠
      ApiResult.err 404
        "Evento não encontrado ou não pertence ao usuário." := by
  refine ⟨rfl, rfl, rfl, ?_⟩
  intro h
  exact ApiResult.noConfusion h

/-- Claim C5 (amended): after a `DeleteEvent` that succeeds *and whose cache
invalidation succeeds*, a `ReadSingleEvent` for the same id — by any caller,
with or without a working cache — returns not-found: the `evento` entry is
gone from the cache and the row is gone from the store.  When the
invalidation fails the stale entry can still serve the deleted event (see
the counterexample). -/
theorem delete_then_read_not_found_amended (f g : Faults) (sql : SqlState)
    (mongo : MongoState) (redis : RedisState) (now : Nat) (E U V : String)
    (row : EventRow)
    (hfind : List.find?
        (fun e => e.id_evento == E && e.id_usuario == U)
        sql.eventos = some row)
    (h1 : f.sqlDeleteFails = false) (h2 : f.mongoDeleteFails = false)
    (h3 : f.cacheDelFails = false) :
    (api_deletar_evento f sql mongo redis E U).result =
      ApiResult.noContent ∧
    (api_get_single_event g (api_deletar_evento f sql mongo redis E U).sql
        (api_deletar_evento f sql mongo redis E U).mongo
        (api_deletar_evento f sql mongo redis E U).redis now E V).result =
      ApiResult.err 404
        "Evento não encontrado ou não pertence ao usuário." := by
  have hrow : ∀ e ∈ List.filter (fun e => e.id_evento != E) sql.eventos,
      e.id_evento = E → e.id_usuario ≠ V := by
    intro e he h1' _
    have := List.of_mem_filter he
    simp [h1'] at this
  cases hm : row.mongo_detalhes_id with
  | none =>
    have ho : api_deletar_evento f sql mongo redis E U =
        ⟨ApiResult.noContent,
         ⟨sql.usuarios,
          List.filter (fun e => e.id_evento != E) sql.eventos,
          sql.categorias, sql.nextEventId⟩,
         mongo,
         redisDel (redisDel redis ("agenda:" ++ U)) ("evento:" ++ E)⟩ := by
      simp [api_deletar_evento, deletar_evento_completo, hfind, h1, h2, h3,
        hm]
    rw [ho]
    exact ⟨rfl, api_get_single_404 g _ mongo _ now E V hrow
      (redisGet_del_self _ _)⟩
  | some mid =>
    have ho : api_deletar_evento f sql mongo redis E U =
        ⟨ApiResult.noContent,
         ⟨sql.usuarios,
          List.filter (fun e => e.id_evento != E) sql.eventos,
          sql.categorias, sql.nextEventId⟩,
         mongoDelete mongo mid,
         redisDel (redisDel redis ("agenda:" ++ U)) ("evento:" ++ E)⟩ := by
      simp [api_deletar_evento, deletar_evento_completo, hfind, h1, h2, h3,
        hm]
    rw [ho]
    exact ⟨rfl, api_get_single_404 g _ _ _ now E V hrow
      (redisGet_del_self _ _)⟩

/-- Witness for `delete_then_read_not_found_amended` at the fixture: `B`
deletes event 1 with a healthy cache starting from the cached state, and a
following read (here by `B` itself, with the cache healthy) answers 404. -/
theorem delete_then_read_not_found_amended_witness :
    (api_deletar_evento noFaults sql0 mongo0 [("evento:1", eventoBJson)]
        "1" "B").result = ApiResult.noContent ∧
    (api_get_single_event noFaults
        (api_deletar_evento noFaults sql0 mongo0
          [("evento:1", eventoBJson)] "1" "B").sql
        (api_deletar_evento noFaults sql0 mongo0
          [("evento:1", eventoBJson)] "1" "B").mongo
        (api_deletar_evento noFaults sql0 mongo0
          [("evento:1", eventoBJson)] "1" "B").redis 0 "1" "B").result =
      ApiResult.err 404
        "Evento não encontrado ou não pertence ao usuário." :=
  delete_then_read_not_found_amended noFaults noFaults sql0 mongo0
    [("evento:1", eventoBJson)] 0 "1" "B" "B" rowB rfl rfl rfl rfl

/-! ## Claim C6 — back-to-back agenda reads are byte-identical -/

/-- Claim C6: with the cache healthy, two consecutive `ReadAgenda` calls for
the same user with no intervening write return byte-identical serialized
results; the second is served from the cache entry present after the first
call, and when the entry was initially absent that entry is exactly the
serialization of the store-computed agenda written by the first call. -/
theorem read_agenda_twice_byte_identical (f : Faults) (sql : SqlState)
    (mongo : MongoState) (redis : RedisState) (now : Nat) (uid : String)
    (hGet : f.cacheGetFails = false) (hSet : f.cacheSetFails = false) :
    (api_obter_agenda f (api_obter_agenda f sql mongo redis now uid).sql
        (api_obter_agenda f sql mongo redis now uid).mongo
        (api_obter_agenda f sql mongo redis now uid).redis now uid).result =
      (api_obter_agenda f sql mongo redis now uid).result ∧
    (∃ v, redisGet (api_obter_agenda f sql mongo redis now uid).redis
        ("agenda:" ++ uid) = some v ∧
      (api_obter_agenda f (api_obter_agenda f sql mongo redis now uid).sql
        (api_obter_agenda f sql mongo redis now uid).mongo
        (api_obter_agenda f sql mongo redis now uid).redis now
        uid).result = ApiResult.ok v) ∧
    (redisGet redis ("agenda:" ++ uid) = none →
      redisGet (api_obter_agenda f sql mongo redis now uid).redis
          ("agenda:" ++ uid) =
        some (Json.arr (obter_agenda_do_banco sql mongo now uid))) := by
  cases hr : redisGet redis ("agenda:" ++ uid) with
  | some v =>
    have ho1 : api_obter_agenda f sql mongo redis now uid =
        ⟨ApiResult.ok v, sql, mongo, redis⟩ := by
      simp [api_obter_agenda, hGet, hr]
    rw [ho1]
    exact ⟨by simp [api_obter_agenda, hGet, hr],
      ⟨v, hr, by simp [api_obter_agenda, hGet, hr]⟩, by simp [hr]⟩
  | none =>
    have ho1 : api_obter_agenda f sql mongo redis now uid =
        ⟨ApiResult.ok (Json.arr (obter_agenda_do_banco sql mongo now uid)),
         sql, mongo,
         redisSet redis ("agenda:" ++ uid)
           (Json.arr (obter_agenda_do_banco sql mongo now uid))⟩ := by
      simp [api_obter_agenda, hGet, hSet, hr]
    rw [ho1]
    have hr2 := redisGet_set_self redis ("agenda:" ++ uid)
      (Json.arr (obter_agenda_do_banco sql mongo now uid))
    refine ⟨by simp [api_obter_agenda, hGet, hr2], ?_, fun _ => hr2⟩
    exact ⟨_, hr2, by simp [api_obter_agenda, hGet, hr2]⟩

/-- Witness for `read_agenda_twice_byte_identical` at the fixture, starting
from an empty cache. -/
theorem read_agenda_twice_byte_identical_witness :
    (api_obter_agenda noFaults
        (api_obter_agenda noFaults sql0 mongo0 [] 0 "B").sql
        (api_obter_agenda noFaults sql0 mongo0 [] 0 "B").mongo
        (api_obter_agenda noFaults sql0 mongo0 [] 0 "B").redis 0
        "B").result =
      (api_obter_agenda noFaults sql0 mongo0 [] 0 "B").result ∧
    redisGet (api_obter_agenda noFaults sql0 mongo0 [] 0 "B").redis
        "agenda:B" =
      some (Json.arr (obter_agenda_do_banco sql0 mongo0 0 "B")) := by
  have h := read_agenda_twice_byte_identical noFaults sql0 mongo0 [] 0 "B"
    rfl rfl
  exact ⟨h.1, h.2.2 rfl⟩

/-- The view lookup by event id misses on rows mapped from relational rows
none of which carries that id. -/
theorem find?_view_map_none (evs : List EventRow) (nome : Nat → String)
    (uid nid : String) (q : EventRow → Bool)
    (hfresh : ∀ e ∈ evs, e.id_evento ≠ nid) :
    List.find? (fun r => r.id_usuario == uid && r.id_evento == nid)
      ((List.filter q evs).map (fun e =>
        (⟨e.id_evento, e.id_usuario, e.id_categoria, nome e.id_categoria,
          e.titulo, e.data_hora_inicio, e.local_evento,
          e.mongo_detalhes_id⟩ : ViewRow))) = none := by
  rw [List.find?_eq_none]
  intro r hr
  simp only [List.mem_map, List.mem_filter] at hr
  obtain ⟨e, ⟨he, _⟩, rfl⟩ := hr
  simp only [Bool.and_eq_true, beq_iff_eq, not_and]
  intro _ h2
  exact hfresh e he h2

/-! ## Claim C8 — create invalidates exactly the caller's agenda entry -/

/-- Claim C8: a successful `CreateEvent` by user `uid` removes exactly the
list cache entry `agenda:{uid}`: the resulting cache state is the input
state with that one key deleted, that key now misses, and every other key —
in particular every single-item `evento:` entry — reads exactly as
before. -/
theorem create_invalidates_exactly_agenda_entry (f : Faults)
    (sql : SqlState) (mongo : MongoState) (redis : RedisState) (now : Nat)
    (evento : EventoCriacao) (uid : String)
    (h1 : f.mongoInsertFails = false) (h2 : f.sqlProcFails = false)
    (h3 : f.cacheDelFails = false)
    (hfut : now < evento.data_hora_inicio)
    (hfresh : ∀ e ∈ sql.eventos, e.id_evento ≠ toString sql.nextEventId) :
    isOkResult (api_criar_evento f sql mongo redis now evento uid).result =
      true ∧
    (api_criar_evento f sql mongo redis now evento uid).redis =
      redisDel redis ("agenda:" ++ uid) ∧
    redisGet (api_criar_evento f sql mongo redis now evento uid).redis
      ("agenda:" ++ uid) = none ∧
    (∀ k, k ≠ "agenda:" ++ uid →
      redisGet (api_criar_evento f sql mongo redis now evento uid).redis k =
        redisGet redis k) := by
  obtain ⟨j, hj⟩ : ∃ j, get_single_event_by_id
      ⟨sql.usuarios,
       sql.eventos ++ [⟨toString sql.nextEventId, uid, evento.id_categoria,
         evento.titulo, evento.data_hora_inicio, evento.local_evento,
         some (toString mongo.nextId)⟩],
       sql.categorias, sql.nextEventId + 1⟩
      ⟨mongo.docs ++ [(toString mongo.nextId, evento.dados_mongo)],
       mongo.nextId + 1⟩
      now (toString sql.nextEventId) uid = some j := by
    simp only [get_single_event_by_id, viewAgendaFutura, List.filter_append,
      List.map_append, List.find?_append]
    rw [find?_view_map_none sql.eventos _ uid (toString sql.nextEventId) _
      hfresh]
    simp only [List.filter_cons, List.filter_nil, hfut, decide_True,
      if_true, List.map_cons, List.map_nil, List.find?_cons,
      beq_self_eq_true, Bool.and_self, Option.none_or]
    cases hdoc : List.find?
        (fun d => d.1 == toString mongo.nextId) mongo.docs with
    | none => exact ⟨_, rfl⟩
    | some d => exact ⟨_, rfl⟩
  have ho : api_criar_evento f sql mongo redis now evento uid =
      ⟨ApiResult.ok j,
       ⟨sql.usuarios,
        sql.eventos ++ [⟨toString sql.nextEventId, uid,
          evento.id_categoria, evento.titulo, evento.data_hora_inicio,
          evento.local_evento, some (toString mongo.nextId)⟩],
        sql.categorias, sql.nextEventId + 1⟩,
       ⟨mongo.docs ++ [(toString mongo.nextId, evento.dados_mongo)],
        mongo.nextId + 1⟩,
       redisDel redis ("agenda:" ++ uid)⟩ := by
    simp [api_criar_evento, criar_evento_completo, mongoInsert,
      spAdicionarEventoPrincipal, h1, h2, h3, natToString_beq_empty, hj]
  rw [ho]
  exact ⟨rfl, rfl, redisGet_del_self _ _,
    fun k hk => redisGet_del_ne _ _ _ hk⟩

/-- Witness for `create_invalidates_exactly_agenda_entry` at the fixture:
`A` creates a future event starting from a cache that holds `B`'s agenda
and `B`'s single-event entry; only `agenda:A` is removed. -/
theorem create_invalidates_exactly_agenda_entry_witness :
    (api_criar_evento noFaults sql0 mongo0
        [("agenda:A", Json.null), ("agenda:B", Json.null),
         ("evento:1", eventoBJson)] 0 novoEvento "A").redis =
      redisDel
        [("agenda:A", Json.null), ("agenda:B", Json.null),
         ("evento:1", eventoBJson)] "agenda:A" ∧
    redisGet (api_criar_evento noFaults sql0 mongo0
        [("agenda:A", Json.null), ("agenda:B", Json.null),
         ("evento:1", eventoBJson)] 0 novoEvento "A").redis "agenda:A" =
      none ∧
    redisGet (api_criar_evento noFaults sql0 mongo0
        [("agenda:A", Json.null), ("agenda:B", Json.null),
         ("evento:1", eventoBJson)] 0 novoEvento "A").redis "evento:1" =
      redisGet
        [("agenda:A", Json.null), ("agenda:B", Json.null),
         ("evento:1", eventoBJson)] "evento:1" := by
  have h := create_invalidates_exactly_agenda_entry noFaults sql0 mongo0
    [("agenda:A", Json.null), ("agenda:B", Json.null),
     ("evento:1", eventoBJson)] 0 novoEvento "A" rfl rfl rfl
    (by decide) (by decide)
  exact ⟨h.2.1, h.2.2.1, h.2.2.2 "evento:1" (by decide)⟩

/-! ## Claim C10 — creating a non-future event commits but reports error -/

/-- Claim C10: when the start timestamp of the created event is not in the
future, both the document insert and the relational insert succeed and
commit, yet the endpoint reports a 500 because the fetch-after-write goes
through the future-events-only view and finds no row: the caller receives a
failure while the new event persists in both stores. -/
theorem create_past_event_commits_but_errors (f : Faults) (sql : SqlState)
    (mongo : MongoState) (redis : RedisState) (now : Nat)
    (evento : EventoCriacao) (uid : String)
    (h1 : f.mongoInsertFails = false) (h2 : f.sqlProcFails = false)
    (h3 : f.cacheDelFails = false)
    (hpast : evento.data_hora_inicio ≤ now)
    (hfresh : ∀ e ∈ sql.eventos, e.id_evento ≠ toString sql.nextEventId) :
    (api_criar_evento f sql mongo redis now evento uid).result =
      ApiResult.err 500 ("Ocorreu um erro ao criar evento: " ++
        "Erro ao buscar evento recém-criado.") ∧
    (⟨toString sql.nextEventId, uid, evento.id_categoria, evento.titulo,
       evento.data_hora_inicio, evento.local_evento,
       some (toString mongo.nextId)⟩ : EventRow) ∈
      (api_criar_evento f sql mongo redis now evento uid).sql.eventos ∧
    (toString mongo.nextId, evento.dados_mongo) ∈
      (api_criar_evento f sql mongo redis now evento uid).mongo.docs := by
  have hnot : ¬(now < evento.data_hora_inicio) := Nat.not_lt.mpr hpast
  have hnone : get_single_event_by_id
      ⟨sql.usuarios,
       sql.eventos ++ [⟨toString sql.nextEventId, uid, evento.id_categoria,
         evento.titulo, evento.data_hora_inicio, evento.local_evento,
         some (toString mongo.nextId)⟩],
       sql.categorias, sql.nextEventId + 1⟩
      ⟨mongo.docs ++ [(toString mongo.nextId, evento.dados_mongo)],
       mongo.nextId + 1⟩
      now (toString sql.nextEventId) uid = none := by
    simp only [get_single_event_by_id, viewAgendaFutura, List.filter_append,
      List.map_append, List.find?_append]
    rw [find?_view_map_none sql.eventos _ uid (toString sql.nextEventId) _
      hfresh]
    simp [List.filter_cons, hnot]
  have ho : api_criar_evento f sql mongo redis now evento uid =
      ⟨ApiResult.err 500 ("Ocorreu um erro ao criar evento: " ++
         "Erro ao buscar evento recém-criado."),
       ⟨sql.usuarios,
        sql.eventos ++ [⟨toString sql.nextEventId, uid,
          evento.id_categoria, evento.titulo, evento.data_hora_inicio,
          evento.local_evento, some (toString mongo.nextId)⟩],
        sql.categorias, sql.nextEventId + 1⟩,
       ⟨mongo.docs ++ [(toString mongo.nextId, evento.dados_mongo)],
        mongo.nextId + 1⟩,
       redisDel redis ("agenda:" ++ uid)⟩ := by
    simp [api_criar_evento, criar_evento_completo, mongoInsert,
      spAdicionarEventoPrincipal, h1, h2, h3, natToString_beq_empty, hnone]
  rw [ho]
  refine ⟨rfl, ?_, ?_⟩ <;> simp

/-- Witness for `create_past_event_commits_but_errors` at the fixture: at
`now = 100` the created event starts exactly at 100, which the future-only
view excludes. -/
theorem create_past_event_commits_but_errors_witness :
    (api_criar_evento noFaults sql0 mongo0 [] 100 novoEvento "A").result =
      ApiResult.err 500 ("Ocorreu um erro ao criar evento: " ++
        "Erro ao buscar evento recém-criado.") ∧
    (⟨"2", "A", 3, "Launch", 100, "HQ", some "8"⟩ : EventRow) ∈
      (api_criar_evento noFaults sql0 mongo0 [] 100 novoEvento
        "A").sql.eventos ∧
    ("8", novoEvento.dados_mongo) ∈
      (api_criar_evento noFaults sql0 mongo0 [] 100 novoEvento
        "A").mongo.docs :=
  create_past_event_commits_but_errors noFaults sql0 mongo0 [] 100
    novoEvento "A" rfl rfl rfl (by decide) (by decide)

/-! ## Claim C2 — cache failures and the primary operation -/

/-- Claim C2 counterexample: in `CreateEvent` the list-cache invalidation
runs inside the endpoint's generic try block, so a failing cache delete is
surfaced as a 500 even though both primary writes succeeded and committed:
the new event is present in both stores while the caller is told the
operation failed. -/
theorem create_cache_delete_failure_surfaces :
    (api_criar_evento {noFaults with cacheDelFails := true} sql0 mongo0 []
        0 novoEvento "A").result =
      ApiResult.err 500 ("Ocorreu um erro ao criar evento: " ++ REDIS_ERR) ∧
    (⟨"2", "A", 3, "Launch", 100, "HQ", some "8"⟩ : EventRow) ∈
      (api_criar_evento {noFaults with cacheDelFails := true} sql0 mongo0
        [] 0 novoEvento "A").sql.eventos ∧
    ("8", novoEvento.dados_mongo) ∈
      (api_criar_evento {noFaults with cacheDelFails := true} sql0 mongo0
        [] 0 novoEvento "A").mongo.docs := by
  refine ⟨rfl, by decide, ?_⟩
  show ("8", novoEvento.dados_mongo) ∈
    (mongo0.docs ++ [("8", novoEvento.dados_mongo)])
  simp

/-- `atualizar_evento_completo` never reads the cache-failure switches. -/
theorem atualizar_ignores_cacheDel (f : Faults) (b : Bool) (sql : SqlState)
    (mongo : MongoState) (E uid : String) (d : EventoCriacao) :
    atualizar_evento_completo {f with cacheDelFails := b} sql mongo E uid
      d = atualizar_evento_completo f sql mongo E uid d := by
  obtain ⟨f1, f2, f3, f4, f5, f6, f7, f8, f9⟩ := f
  rfl

/-- `deletar_evento_completo` never reads the cache-failure switches. -/
theorem deletar_ignores_cacheDel (f : Faults) (b : Bool) (sql : SqlState)
    (mongo : MongoState) (E uid : String) :
    deletar_evento_completo {f with cacheDelFails := b} sql mongo E uid =
      deletar_evento_completo f sql mongo E uid := by
  obtain ⟨f1, f2, f3, f4, f5, f6, f7, f8, f9⟩ := f
  rfl

/-- Claim C2 (amended): a cache read, write, or delete failure is absorbed
and never fails the operation for read-list, read-one, update, and delete:
`ReadAgenda` always returns a success body, `ReadSingleEvent` returns a
success body whenever the store lookup finds the event, and the update and
delete endpoints report the same outcome whether or not their cache
invalidation fails.  For `CreateEvent` the absorption fails (see the
counterexample): a cache-delete failure there surfaces as a 500. -/
theorem cache_failures_absorbed_except_create :
    (∀ (f : Faults) (sql : SqlState) (mongo : MongoState)
        (redis : RedisState) (now : Nat) (uid : String),
      isOkResult (api_obter_agenda f sql mongo redis now uid).result =
        true) ∧
    (∀ (f : Faults) (sql : SqlState) (mongo : MongoState)
        (redis : RedisState) (now : Nat) (E uid : String),
      (get_single_event_by_id sql mongo now E uid).isSome = true →
      isOkResult
        (api_get_single_event f sql mongo redis now E uid).result =
        true) ∧
    (∀ (f : Faults) (sql : SqlState) (mongo : MongoState)
        (redis : RedisState) (now : Nat) (E : String) (d : EventoCriacao)
        (uid : String),
      (api_atualizar_evento {f with cacheDelFails := true} sql mongo redis
        now E d uid).result =
      (api_atualizar_evento {f with cacheDelFails := false} sql mongo
        redis now E d uid).result) ∧
    (∀ (f : Faults) (sql : SqlState) (mongo : MongoState)
        (redis : RedisState) (E uid : String),
      (api_deletar_evento {f with cacheDelFails := true} sql mongo redis
        E uid).result =
      (api_deletar_evento {f with cacheDelFails := false} sql mongo redis
        E uid).result) := by
  refine ⟨?_, ?_, ?_, ?_⟩
  · intro f sql mongo redis now uid
    cases hc : (if f.cacheGetFails then none
        else redisGet redis ("agenda:" ++ uid)) with
    | some v => simp [api_obter_agenda, hc, isOkResult]
    | none => simp [api_obter_agenda, hc, isOkResult]
  · intro f sql mongo redis now E uid h
    cases hc : (if f.cacheGetFails then none
        else redisGet redis ("evento:" ++ E)) with
    | some v => simp [api_get_single_event, hc, isOkResult]
    | none =>
      cases hs : get_single_event_by_id sql mongo now E uid with
      | none => rw [hs] at h; simp at h
      | some j => simp [api_get_single_event, hc, hs, isOkResult]
  · intro f sql mongo redis now E d uid
    simp only [api_atualizar_evento, atualizar_ignores_cacheDel]
    cases hc : (atualizar_evento_completo f sql mongo E uid d).result with
    | error e => simp [hc]
    | ok o =>
      cases o with
      | none => simp [hc]
      | some b =>
        cases hs : get_single_event_by_id
            (atualizar_evento_completo f sql mongo E uid d).sql
            (atualizar_evento_completo f sql mongo E uid d).mongo now E
            uid with
        | none => simp [hc, hs]
        | some j => simp [hc, hs]
  · intro f sql mongo redis E uid
    simp only [api_deletar_evento, deletar_ignores_cacheDel]
    cases hc : (deletar_evento_completo f sql mongo E uid).result with
    | error e => simp [hc]
    | ok o =>
      cases o with
      | none => simp [hc]
      | some b => simp [hc]

/-- Witness for `cache_failures_absorbed_except_create` at the fixture:
reads with the cache completely unavailable still succeed, and update and
delete report the same outcome with the invalidation failing as with it
working. -/
theorem cache_failures_absorbed_except_create_witness :
    isOkResult
      (api_obter_agenda
        {noFaults with cacheGetFails := true, cacheSetFails := true}
        sql0 mongo0 [] 0 "B").result = true ∧
    isOkResult
      (api_get_single_event
        {noFaults with cacheGetFails := true, cacheSetFails := true}
        sql0 mongo0 [] 0 "1" "B").result = true ∧
    (api_atualizar_evento {noFaults with cacheDelFails := true} sql0
        mongo0 [] 0 "1" novoEvento "B").result =
      (api_atualizar_evento {noFaults with cacheDelFails := false} sql0
        mongo0 [] 0 "1" novoEvento "B").result ∧
    (api_deletar_evento {noFaults with cacheDelFails := true} sql0 mongo0
        [] "1" "B").result =
      (api_deletar_evento {noFaults with cacheDelFails := false} sql0
        mongo0 [] "1" "B").result := by
  refine ⟨?_, ?_, ?_, ?_⟩
  · exact cache_failures_absorbed_except_create.1
      {noFaults with cacheGetFails := true, cacheSetFails := true}
      sql0 mongo0 [] 0 "B"
  · exact cache_failures_absorbed_except_create.2.1
      {noFaults with cacheGetFails := true, cacheSetFails := true}
      sql0 mongo0 [] 0 "1" "B" rfl
  · exact cache_failures_absorbed_except_create.2.2.1 noFaults sql0 mongo0
      [] 0 "1" novoEvento "B"
  · exact cache_failures_absorbed_except_create.2.2.2 noFaults sql0 mongo0
      [] "1" "B"

end TicketHub
